import Mathlib

/-!
Verification of the AI Tutor System conversation pipeline.

This development shallowly embeds the string-processing and control logic of
`services/gemini_service.py`, `backend/chat_service.py`, `backend/config.py`
and the data model of `backend/models.py`.  Python strings are modelled as
Lean `String` values (lists of characters, ASCII where the code compares
case); the outcome of a Gemini completion call is passed in explicitly as an
`Except` value, with `Except.error` standing for a raised exception.
-/

/-! ### Python string primitives -/

/-- The ASCII whitespace characters stripped by Python's `str.strip()`. -/
def isPySpace (c : Char) : Bool :=
  c == ' ' || c == '\t' || c == '\n' || c == '\r' || c == '\x0b' || c == '\x0c'

/-- Python `str.strip()` on a character list. -/
def pyStripL (l : List Char) : List Char :=
  ((l.dropWhile isPySpace).reverse.dropWhile isPySpace).reverse

/-- Python `str.strip()`. -/
def pyStrip (s : String) : String := ⟨pyStripL s.data⟩

/-- Python `str.lower()` (ASCII case folding, which covers every comparison
the service performs). -/
def pyLower (s : String) : String := ⟨s.data.map Char.toLower⟩

/-- Python's substring test `pat in s`, on character lists. -/
def listContains (pat : List Char) : List Char → Bool
  | [] => pat.isEmpty
  | c :: rest => pat.isPrefixOf (c :: rest) || listContains pat rest

/-- Python's substring test `sub in s`. -/
def pyContains (sub s : String) : Bool := listContains sub.data s.data

/-- The `pat` occurs in `s` up to ASCII case (both sides lowered). -/
def occursCI (pat s : String) : Bool :=
  listContains (pat.data.map Char.toLower) (s.data.map Char.toLower)

/-- Python `s.startswith(pat)`. -/
def pyStartsWith (s pat : String) : Bool := pat.data.isPrefixOf s.data

/-- Python `s.endswith(pat)`. -/
def pyEndsWith (s pat : String) : Bool := pat.data.isSuffixOf s.data

/-- Python `s.lstrip(chars)`: drop leading characters that belong to `chars`. -/
def pyLStrip (chars : List Char) (s : String) : String :=
  ⟨s.data.dropWhile (fun c => chars.contains c)⟩

/-- Python truthiness of a string: nonempty. -/
def pyTruthy (s : String) : Bool := !s.data.isEmpty

/-- Python `s.split(sep)` for a one-character separator, on lists. -/
def splitOnCharL (sep : Char) : List Char → List (List Char)
  | [] => [[]]
  | c :: rest =>
    if c == sep then [] :: splitOnCharL sep rest
    else
      match splitOnCharL sep rest with
      | [] => [[c]]
      | t :: ts => (c :: t) :: ts

/-- Python `s.split("\n")`. -/
def pySplitNL (s : String) : List String := (splitOnCharL '\n' s.data).map String.mk

/-- Python `sep.join(l)`. -/
def pyJoin (sep : String) : List String → String
  | [] => ""
  | [s] => s
  | s :: rest => s ++ sep ++ pyJoin sep rest

/-- Python `str.title()` on a character list (ASCII); the boolean records
whether the previous character was alphabetic. -/
def pyTitleL : Bool → List Char → List Char
  | _, [] => []
  | prev, c :: rest =>
    if c.isAlpha then
      (if prev then c.toLower else c.toUpper) :: pyTitleL true rest
    else c :: pyTitleL false rest

/-- Python `str.title()`. -/
def pyTitle (s : String) : String := ⟨pyTitleL false s.data⟩

/-- Python `s.replace('_', ' ')`. -/
def pyUnderscoreToSpace (s : String) : String :=
  ⟨s.data.map (fun c => if c == '_' then ' ' else c)⟩

/-- Python list slice `l[-n:]`. -/
def pyLastN (n : Nat) (l : List α) : List α := l.drop (l.length - n)

/-- The first maximal run of decimal digits in `l`
(`re.findall(r"\d+", text)[0]` when it exists). -/
def firstDigitRun (l : List Char) : Option (List Char) :=
  match l.dropWhile (fun c => !c.isDigit) with
  | [] => none
  | c :: rest => some ((c :: rest).takeWhile (fun c => c.isDigit))

/-- Python `int` on a nonempty string of decimal digits. -/
def digitsToNat (l : List Char) : Nat := l.foldl (fun a c => 10 * a + (c.toNat - 48)) 0

/-! ### Data model (`backend/models.py`) -/

/-- The `MessageRole` enum. -/
inductive MessageRole where
  | user
  | assistant
  | system
deriving DecidableEq, Repr

/-- The `EmotionState` enum, constructors in declaration order. -/
inductive EmotionState where
  | happy
  | excited
  | neutral
  | confused
  | stressed
  | sad
  | frustrated
deriving DecidableEq, Repr

/-- Iteration order of `for emotion in EmotionState`: declaration order. -/
def EmotionState.all : List EmotionState :=
  [.happy, .excited, .neutral, .confused, .stressed, .sad, .frustrated]

/-- The `.value` of each `EmotionState` member. -/
def emotionValue : EmotionState → String
  | .happy => "happy"
  | .excited => "excited"
  | .neutral => "neutral"
  | .confused => "confused"
  | .stressed => "stressed"
  | .sad => "sad"
  | .frustrated => "frustrated"

/-- The `AcademicLevel` enum. -/
inductive AcademicLevel where
  | elementary
  | middle_school
  | high_school
  | undergraduate
  | graduate
deriving DecidableEq, Repr

/-- The `.value` of each `AcademicLevel` member. -/
def academicLevelValue : AcademicLevel → String
  | .elementary => "elementary"
  | .middle_school => "middle_school"
  | .high_school => "high_school"
  | .undergraduate => "undergraduate"
  | .graduate => "graduate"

/-- The `StudyStyle` enum. -/
inductive StudyStyle where
  | visual
  | auditory
  | kinesthetic
  | mixed
deriving DecidableEq, Repr

/-- The `.value` of each `StudyStyle` member. -/
def studyStyleValue : StudyStyle → String
  | .visual => "visual"
  | .auditory => "auditory"
  | .kinesthetic => "kinesthetic"
  | .mixed => "mixed"

/-- The `LearningPreferences` model (timestamps omitted; fields as in the source). -/
structure LearningPreferences where
  study_style : StudyStyle
  reminder_frequency : String
  preferred_study_time : Option String
  break_intervals : Nat
  difficulty_preference : String
deriving DecidableEq, Repr

/-- The `User` model (datetime fields omitted as irrelevant to the claims). -/
structure User where
  name : String
  email : String
  academic_level : AcademicLevel
  subjects : List String
  learning_preferences : LearningPreferences
  user_id : String
  total_study_time : Nat
  conversations_count : Nat
deriving DecidableEq, Repr

/-- The `Message` model (timestamp and study-session id omitted). -/
structure Message where
  role : MessageRole
  content : String
  emotion_detected : Option EmotionState
  understanding_level : Option Nat
deriving DecidableEq, Repr

/-- The `AcademicProgress` model (datetime/embedding fields omitted). -/
structure AcademicProgress where
  user_id : String
  subject : String
  topic : String
  understanding_level : Nat
  time_spent : Nat
  progress_id : String
deriving DecidableEq, Repr

/-! ### System prompt table (`backend/config.py`, `SYSTEM_PROMPTS`) -/

/-- The `SYSTEM_PROMPTS["default"]`. -/
def defaultPrompt : String := "You are an empathetic AI tutor and friend for students. Your personality:\n\n🎯 CORE TRAITS:\n- Warm, encouraging, and genuinely caring\n- Use appropriate emojis to convey emotion\n- Ask thoughtful follow-up questions\n- Remember previous conversations and academic progress\n- Detect emotional states (stress, confusion, excitement) and respond appropriately\n\n📚 ACADEMIC SUPPORT:\n- Help with study planning and organization\n- Provide explanations in simple, relatable terms\n- Encourage active learning through questions\n- Track understanding levels (1-10 scale)\n- Suggest personalized study techniques\n\n💝 EMOTIONAL SUPPORT:\n- Acknowledge feelings and validate experiences\n- Offer encouragement during difficult times\n- Celebrate achievements, both big and small\n- Help manage academic stress and anxiety\n- Be a positive, supportive presence\n\nRemember: You're not just a tutor, you're a friend who happens to be really good at helping with academics!"

/-- The `SYSTEM_PROMPTS["study_session"]`. -/
def studySessionPrompt : String := "You are now in STUDY SESSION mode! 🎯\n\nYour role:\n- Keep the student focused and motivated\n- Provide bite-sized explanations when asked\n- Check understanding regularly\n- Offer encouragement and praise effort\n- Track study time and breaks\n- Suggest when to take breaks (every 25-30 mins)\n\nStay energetic, supportive, and focused on learning goals!"

/-- The `SYSTEM_PROMPTS["check_in"]`. -/
def checkInPrompt : String := "Time for a friendly check-in! 😊\n\nYour focus:\n- Ask about their day and how they're feeling\n- Inquire about recent studies and understanding\n- Check on upcoming exams or deadlines\n- Offer emotional support if needed\n- Help them plan their next study steps\n- Be genuinely interested in their well-being\n\nKeep it conversational and caring!"

/-- The `SYSTEM_PROMPTS` as an association list, keys in declaration order. -/
def SYSTEM_PROMPTS : List (String × String) :=
  [("default", defaultPrompt),
   ("study_session", studySessionPrompt),
   ("check_in", checkInPrompt)]

/-- The `SYSTEM_PROMPTS.get(context_type, SYSTEM_PROMPTS["default"])`. -/
def promptForMode (context_type : String) : String :=
  ((SYSTEM_PROMPTS.find? (fun p => p.1 == context_type)).map Prod.snd).getD defaultPrompt

/-! ### `services/gemini_service.py` -/

/-- The student profile block of `GeminiService._build_system_prompt`. -/
def userContext (u : User) : String :=
  "\nSTUDENT PROFILE:\n- Name: " ++ u.name
    ++ "\n- Academic Level: " ++ pyTitle (pyUnderscoreToSpace (academicLevelValue u.academic_level))
    ++ "\n- Subjects: " ++ pyJoin ", " u.subjects
    ++ "\n- Study Style: " ++ studyStyleValue u.learning_preferences.study_style
    ++ "\n- Total Study Time: " ++ toString u.total_study_time ++ " minutes"
    ++ "\n- Conversations: " ++ toString u.conversations_count ++ "\n"

/-- One line of the `RECENT ACADEMIC PROGRESS` block. -/
def progressContextLine (p : AcademicProgress) : String :=
  "- " ++ p.subject ++ ": " ++ p.topic ++ " (Understanding: "
    ++ toString p.understanding_level ++ "/10)\n"

/-- The `GeminiService._build_system_prompt` (the `academic_context` parameter is
a list; `None` in the source behaves like the empty list). -/
def buildSystemPrompt (u : User) (context_type : String)
    (academic_context : List AcademicProgress) : String :=
  let base := promptForMode context_type
  let uc := userContext u
  let uc :=
    if academic_context.isEmpty then uc
    else uc ++ (pyLastN 5 academic_context).foldl
      (fun acc p => acc ++ progressContextLine p) "\nRECENT ACADEMIC PROGRESS:\n"
  base ++ "\n\n" ++ uc

/-- The role label used when rendering a turn:
`"Student" if msg.role == MessageRole.user else "AI Tutor"`. -/
def roleLabel : MessageRole → String
  | .user => "Student"
  | _ => "AI Tutor"

/-- The context window of `_format_conversation_history`:
`history[-10:] if len(history) > 10 else history`. -/
def recentMessages (history : List Message) : List Message :=
  if history.length > 10 then history.drop (history.length - 10) else history

/-- The loop body of `_format_conversation_history`. -/
def historyStep (acc : String) (msg : Message) : String :=
  let acc := acc ++ roleLabel msg.role ++ ": " ++ msg.content ++ "\n"
  match msg.emotion_detected with
  | some e => acc ++ "[Emotion detected: " ++ emotionValue e ++ "]\n"
  | none => acc

/-- The `GeminiService._format_conversation_history`. -/
def formatConversationHistory (history : List Message) (current_message : String) : String :=
  ((recentMessages history).foldl historyStep "CONVERSATION HISTORY:\n")
    ++ "\nStudent: " ++ current_message ++ "\nAI Tutor:"

/-- The parse of `_detect_emotion` on the completion reply: lower-case the
stripped reply, return the first enum member whose value is a substring,
default `neutral`. -/
def detectEmotionText (reply : String) : EmotionState :=
  let t := pyLower (pyStrip reply)
  (EmotionState.all.find? (fun e => pyContains (emotionValue e) t)).getD .neutral

/-- The `GeminiService._detect_emotion`, the completion call's outcome passed in
(`Except.error` = the call raised; the handler returns `None`). -/
def detectEmotion (callResult : Except String String) : Option EmotionState :=
  match callResult with
  | .error _ => none
  | .ok reply => some (detectEmotionText reply)

/-- The clamp `max(1, min(10, level))`. -/
def clampLevel (n : Nat) : Nat := max 1 (min 10 n)

/-- The parse of `_extract_understanding_level` on the completion reply. -/
def extractLevelText (reply : String) : Option Nat :=
  let t := pyStrip reply
  if pyContains "N/A" t || pyContains "n/a" t then none
  else
    match firstDigitRun t.data with
    | some run => some (clampLevel (digitsToNat run))
    | none => none

/-- The `GeminiService._extract_understanding_level`, the call's outcome passed
in (`Except.error` = the call raised; the handler returns `None`). -/
def extractUnderstandingLevel (callResult : Except String String) : Option Nat :=
  match callResult with
  | .error _ => none
  | .ok reply => extractLevelText reply

/-- The `GeminiService._get_fallback_response`. -/
def fallbackResponse : String := "I'm having a bit of trouble connecting right now, but I'm still here for you! 😊 \n        \nCould you tell me what you'd like to work on today? Whether it's:\n- Reviewing a specific subject\n- Planning your study schedule  \n- Just having a chat about how you're feeling\n\nI'm here to help however I can!"

/-- The `GeminiService.generate_response`: the outcomes of the three completion
calls (reply, emotion, understanding) are passed in.  A raised reply call is
caught by the outer handler; failures of the two extraction calls are caught
inside the respective helpers and never reach the outer handler. -/
def generateResponse (replyResult emotionResult levelResult : Except String String) :
    String × Option EmotionState × Option Nat :=
  match replyResult with
  | .error _ => (fallbackResponse, none, none)
  | .ok reply => (reply, detectEmotion emotionResult, extractUnderstandingLevel levelResult)

/-- The `GeminiService.generate_session_summary`, the call's outcome passed in. -/
def generateSessionSummary (callResult : Except String String) : String :=
  match callResult with
  | .error _ => "Study session completed successfully."
  | .ok summary => pyStrip summary

/-- The characters stripped from the front of a kept suggestion line:
`line.lstrip("-•1234567890. ")`. -/
def markerChars : List Char := "-•1234567890. ".data

/-- The loop body of the suggestion parser in `generate_study_suggestions`. -/
def suggestionStep (acc : List String) (raw : String) : List String :=
  let line := pyStrip raw
  if pyTruthy line &&
      (pyStartsWith line "-" || pyStartsWith line "•" || pyStartsWith line "1.") then
    let sug := pyStrip (pyLStrip markerChars line)
    if pyTruthy sug then acc ++ [sug] else acc
  else acc

/-- The suggestion-list parse of `generate_study_suggestions` on the
completion reply. -/
def parseSuggestions (reply : String) : List String :=
  ((pySplitNL reply).foldl suggestionStep []).take 5

/-- The fixed fallback suggestion list. -/
def fallbackSuggestions : List String :=
  ["Review your recent notes and highlight key concepts",
   "Practice active recall by explaining topics out loud",
   "Take regular breaks during study sessions",
   "Create visual summaries or mind maps for complex topics"]

/-- One rendered progress line of the suggestions prompt. -/
def progressSummaryLine (p : AcademicProgress) : String :=
  "- " ++ p.subject ++ ": " ++ p.topic ++ " (Level: "
    ++ toString p.understanding_level ++ "/10)"

/-- The prompt text built by `generate_study_suggestions` when
`upcoming_exams` is `None` (as in the turn-processing path), so the exam
block is empty. -/
def suggestionsPrompt (u : User) (academic_progress : List AcademicProgress) : String :=
  let progress_summary := pyJoin "\n" ((pyLastN 10 academic_progress).map progressSummaryLine)
  "\nGenerate 3-5 personalized study suggestions for " ++ u.name
    ++ ".\nConsider their:\n- Academic level: " ++ academicLevelValue u.academic_level
    ++ "\n- Learning style: " ++ studyStyleValue u.learning_preferences.study_style
    ++ "\n- Recent progress: " ++ progress_summary
    ++ "\n\n\nProvide specific, actionable suggestions that match their learning style and current needs.\n\nSuggestions:"

/-- The `GeminiService.generate_study_suggestions`, the call's outcome passed in. -/
def generateStudySuggestions (callResult : Except String String) : List String :=
  match callResult with
  | .error _ => fallbackSuggestions
  | .ok reply => parseSuggestions reply

/-- The full prompt assembled by `generate_response`. -/
def fullPrompt (u : User) (context_type : String) (academic_context : List AcademicProgress)
    (history : List Message) (user_message : String) : String :=
  buildSystemPrompt u context_type academic_context ++ "\n\n"
    ++ formatConversationHistory history user_message

/-! ### `backend/chat_service.py` -/

/-- The `process_message` increments the active session's `message_count` by 2:
one student turn and one assistant turn are appended. -/
def processMessageCount (count : Nat) : Nat := count + 2

/-- The suggestion cadence gate
`message_count > 0 and message_count % 6 == 0`; `session_info` aliases the
active-session dict, so the gate reads the count after the increment. -/
def suggestionsFire (message_count : Nat) : Bool :=
  message_count > 0 && message_count % 6 == 0

/-- Appended-turn count of an active session after processing `k` messages. -/
def countAfter : Nat → Nat
  | 0 => 0
  | k + 1 => processMessageCount (countAfter k)

/-- Whether suggestion generation fires while processing message `k`. -/
def firesAt (k : Nat) : Bool := suggestionsFire (countAfter k)

/-- The suggestions prompt produced in the turn-processing path:
`process_message` passes `academic_progress[-5:] if academic_progress else []`
to `generate_study_suggestions` (both branches equal `pyLastN 5`). -/
def turnSuggestionsPrompt (u : User) (academic_progress : List AcademicProgress) : String :=
  suggestionsPrompt u (pyLastN 5 academic_progress)

/-! ### Spec-side formulations and concrete scenario data -/

/-- The understanding-level parse as the claim words it (amended): the exact
markers `"N/A"` and `"n/a"` are checked on the raw reply, then the first
decimal digit run is clamped into `[1, 10]`. -/
def specUnderstandingParse (reply : String) : Option Nat :=
  if pyContains "N/A" reply || pyContains "n/a" reply then none
  else
    match firstDigitRun reply.data with
    | some run =>
      some (if digitsToNat run < 1 then 1
            else if digitsToNat run > 10 then 10
            else digitsToNat run)
    | none => none

/-- The first emotion label, in enum-declaration order, that occurs in the
reply as a case-insensitive substring. -/
def firstEmotionCI (reply : String) : Option EmotionState :=
  EmotionState.all.find? (fun e => occursCI (emotionValue e) reply)

/-- The keep-line test of the suggestion parser: the stripped line begins
with `-`, `•`, or the numeric marker `1.`. -/
def suggestionKeep (line : String) : Bool :=
  pyStartsWith line "-" || pyStartsWith line "•" || pyStartsWith line "1."

/-- The suggestion-list parse as the claim words it: strip each line, keep
the marker lines, strip marker and whitespace, drop empties, take 5. -/
def specSuggestionLines (reply : String) : List String :=
  (((((pySplitNL reply).map pyStrip).filter suggestionKeep).map
    (fun l => pyStrip (pyLStrip markerChars l))).filter (fun s => pyTruthy s)).take 5

/-- Per-line outcome of the suggestion-parser loop body. -/
def lineParse (raw : String) : Option String :=
  let line := pyStrip raw
  if pyTruthy line && suggestionKeep line then
    let sug := pyStrip (pyLStrip markerChars line)
    if pyTruthy sug then some sug else none
  else none

/-- Spec-side rendering of one history turn: the `role: content` line,
followed by the emotion tag line exactly when an emotion was stored. -/
def renderTurn (m : Message) : String :=
  roleLabel m.role ++ ": " ++ m.content ++ "\n"
    ++ (match m.emotion_detected with
        | some e => "[Emotion detected: " ++ emotionValue e ++ "]\n"
        | none => "")

/-- A concrete student profile used in scenario theorems. -/
def sampleUser : User :=
  ⟨"Stu", "stu@example.com", .high_school, ["Math"],
    ⟨.mixed, "daily", none, 25, "adaptive"⟩, "uid-1", 0, 0⟩

/-- The oldest of ten concrete progress facts. -/
def factOne : AcademicProgress := ⟨"uid-1", "S01", "T01", 3, 30, "p01"⟩

/-- Ten concrete progress facts, oldest first. -/
def tenFacts : List AcademicProgress :=
  [factOne,
   ⟨"uid-1", "S02", "T02", 3, 30, "p02"⟩,
   ⟨"uid-1", "S03", "T03", 3, 30, "p03"⟩,
   ⟨"uid-1", "S04", "T04", 3, 30, "p04"⟩,
   ⟨"uid-1", "S05", "T05", 3, 30, "p05"⟩,
   ⟨"uid-1", "S06", "T06", 3, 30, "p06"⟩,
   ⟨"uid-1", "S07", "T07", 3, 30, "p07"⟩,
   ⟨"uid-1", "S08", "T08", 3, 30, "p08"⟩,
   ⟨"uid-1", "S09", "T09", 3, 30, "p09"⟩,
   ⟨"uid-1", "S10", "T10", 3, 30, "p10"⟩]

/-- A concrete stored turn carrying a detected emotion. -/
def sampleTurn : Message := ⟨.user, "hi", some .happy, none⟩

/-- The profile of the C-scenario student: name Ada, undergraduate,
subjects Math and Physics; the remaining fields are arbitrary. -/
def adaUser (prefs : LearningPreferences) (email uid : String) (t c : Nat) : User :=
  ⟨"Ada", email, .undergraduate, ["Math", "Physics"], prefs, uid, t, c⟩

/-- The full prompt composed for Ada in study-session mode with empty
progress facts and empty history, for the utterance
"What is a derivative?". -/
def adaPrompt (prefs : LearningPreferences) (email uid : String) (t c : Nat) : String :=
  fullPrompt (adaUser prefs email uid t c) "study_session" [] [] "What is a derivative?"

/-! ### String and list toolkit lemmas -/

theorem strAppend_assoc (a b c : String) : a ++ b ++ c = a ++ (b ++ c) :=
  String.ext (by simp [String.data_append, List.append_assoc])

theorem strAppend_empty (a : String) : a ++ "" = a :=
  String.ext (by simp [String.data_append])

theorem isPrefixOf_self_append (p t : List Char) : p.isPrefixOf (p ++ t) = true := by
  rw [List.isPrefixOf_iff_prefix]
  exact List.prefix_append p t

theorem listContains_self_append (p t : List Char) : listContains p (p ++ t) = true := by
  cases h : p ++ t with
  | nil =>
    rcases List.append_eq_nil.mp h with ⟨rfl, rfl⟩
    rfl
  | cons c rest =>
    rw [listContains, ← h, isPrefixOf_self_append, Bool.true_or]

theorem listContains_of_parts (p x y l : List Char) (h : l = x ++ p ++ y) :
    listContains p l = true := by
  subst h
  induction x with
  | nil => simpa using listContains_self_append p y
  | cons c x ih =>
    rw [List.cons_append, List.cons_append, listContains, ih, Bool.or_true]

theorem listContains_parts_of_true (p l : List Char) (h : listContains p l = true) :
    ∃ x y, l = x ++ p ++ y := by
  induction l with
  | nil =>
    refine ⟨[], [], ?_⟩
    rw [listContains] at h
    simp [List.isEmpty_iff.mp h]
  | cons c rest ih =>
    rw [listContains, Bool.or_eq_true] at h
    rcases h with h | h
    · rcases List.isPrefixOf_iff_prefix.mp h with ⟨t, ht⟩
      exact ⟨[], t, by simp [← ht]⟩
    · rcases ih h with ⟨x, y, hxy⟩
      exact ⟨c :: x, y, by simp [hxy]⟩

theorem listContains_cons_tail (p : List Char) (c : Char) (rest : List Char)
    (h : listContains p rest = true) : listContains p (c :: rest) = true := by
  rw [listContains, h, Bool.or_true]

theorem listContains_append_right (p a b : List Char) (h : listContains p b = true) :
    listContains p (a ++ b) = true := by
  induction a with
  | nil => simpa using h
  | cons c a ih => exact listContains_cons_tail p c (a ++ b) ih

theorem listContains_append_left (p a b : List Char) (h : listContains p a = true) :
    listContains p (a ++ b) = true := by
  rcases listContains_parts_of_true p a h with ⟨x, y, hxy⟩
  exact listContains_of_parts p x (y ++ b) _ (by simp [hxy, List.append_assoc])

theorem isPrefixOf_false_of_head (q : Char → Bool) (lab : List Char) (c : Char)
    (rest : List Char) (hc : q c = true) (hlab : ∀ a ∈ lab, q a = false) (hne : lab ≠ []) :
    lab.isPrefixOf (c :: rest) = false := by
  cases lab with
  | nil => exact absurd rfl hne
  | cons a lab =>
    have ha : q a = false := hlab a (List.mem_cons_self a lab)
    have : (a == c) = false := by
      rw [beq_eq_false_iff_ne]
      intro h
      rw [h, hc] at ha
      cases ha
    rw [List.isPrefixOf, this, Bool.false_and]

theorem isPrefixOf_append_of_disjoint (q : Char → Bool) (lab m y : List Char)
    (hy : ∀ c ∈ y, q c = true) (hlab : ∀ c ∈ lab, q c = false) :
    lab.isPrefixOf (m ++ y) = lab.isPrefixOf m := by
  induction m generalizing lab with
  | nil =>
    cases lab with
    | nil => simp [List.isPrefixOf]
    | cons a lab =>
      rw [List.nil_append]
      cases y with
      | nil => rfl
      | cons c ys =>
        rw [isPrefixOf_false_of_head q (a :: lab) c ys (hy c (List.mem_cons_self c ys)) hlab
          (by simp)]
        rfl
  | cons b m ih =>
    cases lab with
    | nil => rfl
    | cons a lab =>
      rw [List.cons_append, List.isPrefixOf, List.isPrefixOf,
        ih lab (fun c hc => hlab c (List.mem_cons_of_mem a hc))]

theorem listContains_append_of_disjoint (q : Char → Bool) (lab m y : List Char)
    (hy : ∀ c ∈ y, q c = true) (hlab : ∀ c ∈ lab, q c = false) (hne : lab ≠ []) :
    listContains lab (m ++ y) = listContains lab m := by
  induction m with
  | nil =>
    rw [List.nil_append]
    have hfalse : listContains lab y = false := by
      induction y with
      | nil =>
        rw [listContains]
        cases lab with
        | nil => exact absurd rfl hne
        | cons a l => rfl
      | cons c ys ihy =>
        rw [listContains,
          isPrefixOf_false_of_head q lab c ys (hy c (List.mem_cons_self c ys)) hlab hne,
          Bool.false_or]
        exact ihy fun d hd => hy d (List.mem_cons_of_mem c hd)
    rw [hfalse, listContains]
    cases lab with
    | nil => exact absurd rfl hne
    | cons a l => rfl
  | cons b m ih =>
    rw [List.cons_append, listContains, listContains, ← List.cons_append,
      isPrefixOf_append_of_disjoint q lab (b :: m) y hy hlab, ih]

theorem listContains_prepend_of_disjoint (q : Char → Bool) (lab x m : List Char)
    (hx : ∀ c ∈ x, q c = true) (hlab : ∀ c ∈ lab, q c = false) (hne : lab ≠ []) :
    listContains lab (x ++ m) = listContains lab m := by
  induction x with
  | nil => rw [List.nil_append]
  | cons c xs ih =>
    rw [List.cons_append, listContains,
      isPrefixOf_false_of_head q lab c (xs ++ m) (hx c (List.mem_cons_self c xs)) hlab hne,
      Bool.false_or]
    exact ih fun d hd => hx d (List.mem_cons_of_mem c hd)

theorem pySpace_cases (c : Char) (h : isPySpace c = true) :
    c = ' ' ∨ c = '\t' ∨ c = '\n' ∨ c = '\r' ∨ c = '\x0b' ∨ c = '\x0c' := by
  simpa [isPySpace, or_assoc] using h

theorem toLower_of_pySpace (c : Char) (h : isPySpace c = true) : Char.toLower c = c := by
  rcases pySpace_cases c h with rfl | rfl | rfl | rfl | rfl | rfl <;> decide

theorem not_isDigit_of_pySpace (c : Char) (h : isPySpace c = true) : c.isDigit = false := by
  rcases pySpace_cases c h with rfl | rfl | rfl | rfl | rfl | rfl <;> decide

theorem pyStripL_decomp (l : List Char) :
    l = l.takeWhile isPySpace ++ pyStripL l
      ++ ((l.dropWhile isPySpace).reverse.takeWhile isPySpace).reverse := by
  conv_lhs => rw [← List.takeWhile_append_dropWhile isPySpace l]
  rw [List.append_assoc]
  congr 1
  conv_lhs => rw [← List.reverse_reverse (l.dropWhile isPySpace),
    ← List.takeWhile_append_dropWhile isPySpace (l.dropWhile isPySpace).reverse]
  rw [List.reverse_append, pyStripL]

theorem mem_stripHead_pySpace (l : List Char) (c : Char)
    (h : c ∈ l.takeWhile isPySpace) : isPySpace c = true :=
  List.mem_takeWhile_imp h

theorem mem_stripTail_pySpace (l : List Char) (c : Char)
    (h : c ∈ ((l.dropWhile isPySpace).reverse.takeWhile isPySpace).reverse) :
    isPySpace c = true :=
  List.mem_takeWhile_imp (List.mem_reverse.mp h)

theorem listContains_pyStripL (lab l : List Char)
    (hlab : ∀ c ∈ lab, isPySpace c = false) (hne : lab ≠ []) :
    listContains lab (pyStripL l) = listContains lab l := by
  conv_rhs => rw [pyStripL_decomp l]
  rw [List.append_assoc,
    listContains_prepend_of_disjoint isPySpace lab _ _ (mem_stripHead_pySpace l) hlab hne,
    listContains_append_of_disjoint isPySpace lab _ _ (mem_stripTail_pySpace l) hlab hne]

theorem listContains_lower_pyStripL (lab l : List Char)
    (hlab : ∀ c ∈ lab, isPySpace c = false) (hne : lab ≠ []) :
    listContains lab ((pyStripL l).map Char.toLower)
      = listContains lab (l.map Char.toLower) := by
  conv_rhs => rw [pyStripL_decomp l]
  rw [List.map_append, List.map_append, List.append_assoc,
    listContains_prepend_of_disjoint isPySpace lab _ _ ?hx hlab hne,
    listContains_append_of_disjoint isPySpace lab _ _ ?hy hlab hne]
  case hx =>
    intro c hc
    rcases List.mem_map.mp hc with ⟨d, hd, rfl⟩
    have hws := mem_stripHead_pySpace l d hd
    rw [toLower_of_pySpace d hws]
    exact hws
  case hy =>
    intro c hc
    rcases List.mem_map.mp hc with ⟨d, hd, rfl⟩
    have hws := mem_stripTail_pySpace l d hd
    rw [toLower_of_pySpace d hws]
    exact hws

theorem firstDigitRun_cons_not (c : Char) (l : List Char) (hc : c.isDigit = false) :
    firstDigitRun (c :: l) = firstDigitRun l := by
  simp [firstDigitRun, List.dropWhile_cons, hc]

theorem firstDigitRun_cons_digit (c : Char) (l : List Char) (hc : c.isDigit = true) :
    firstDigitRun (c :: l) = some ((c :: l).takeWhile (fun c => c.isDigit)) := by
  simp [firstDigitRun, List.dropWhile_cons, hc]

theorem takeWhile_append_of_none (p : Char → Bool) (m y : List Char)
    (hy : ∀ c ∈ y, p c = false) : (m ++ y).takeWhile p = m.takeWhile p := by
  induction m with
  | nil =>
    rw [List.nil_append]
    cases y with
    | nil => rfl
    | cons c ys => simp [List.takeWhile_cons, hy c (List.mem_cons_self c ys)]
  | cons b ms ih =>
    rw [List.cons_append, List.takeWhile_cons, List.takeWhile_cons]
    cases hb : p b <;> simp [hb, ih]

theorem firstDigitRun_append_right (m y : List Char)
    (hy : ∀ c ∈ y, c.isDigit = false) : firstDigitRun (m ++ y) = firstDigitRun m := by
  induction m with
  | nil =>
    have hnil : y.dropWhile (fun c => !c.isDigit) = [] :=
      List.dropWhile_eq_nil_iff.mpr (fun c hc => by simp [hy c hc])
    simp only [List.nil_append, firstDigitRun, hnil, List.dropWhile_nil]
  | cons c ms ih =>
    cases hc : c.isDigit with
    | false =>
      rw [List.cons_append, firstDigitRun_cons_not c _ hc, ih,
        firstDigitRun_cons_not c ms hc]
    | true =>
      rw [List.cons_append, firstDigitRun_cons_digit c _ hc,
        firstDigitRun_cons_digit c ms hc, ← List.cons_append,
        takeWhile_append_of_none _ _ y hy]

theorem firstDigitRun_prepend (x m : List Char)
    (hx : ∀ c ∈ x, c.isDigit = false) : firstDigitRun (x ++ m) = firstDigitRun m := by
  induction x with
  | nil => rfl
  | cons c xs ih =>
    rw [List.cons_append, firstDigitRun_cons_not c _ (hx c (List.mem_cons_self c xs))]
    exact ih fun d hd => hx d (List.mem_cons_of_mem c hd)

theorem firstDigitRun_pyStripL (l : List Char) :
    firstDigitRun (pyStripL l) = firstDigitRun l := by
  conv_rhs => rw [pyStripL_decomp l]
  rw [List.append_assoc,
    firstDigitRun_prepend _ _
      (fun c hc => not_isDigit_of_pySpace c (mem_stripHead_pySpace l c hc)),
    firstDigitRun_append_right _ _
      (fun c hc => not_isDigit_of_pySpace c (mem_stripTail_pySpace l c hc))]

theorem pyContains_pyStrip (sub s : String)
    (hlab : ∀ c ∈ sub.data, isPySpace c = false) (hne : sub.data ≠ []) :
    pyContains sub (pyStrip s) = pyContains sub s :=
  listContains_pyStripL sub.data s.data hlab hne

theorem find?_congr {α : Type} (l : List α) (p q : α → Bool)
    (h : ∀ a ∈ l, p a = q a) : l.find? p = l.find? q := by
  induction l with
  | nil => rfl
  | cons a t ih =>
    rw [List.find?_cons, List.find?_cons, h a (List.mem_cons_self a t)]
    cases q a
    · exact ih fun b hb => h b (List.mem_cons_of_mem a hb)
    · rfl

theorem emotionValue_ascii (e : EmotionState) :
    (emotionValue e).data ≠ [] ∧ (∀ c ∈ (emotionValue e).data, isPySpace c = false)
      ∧ (emotionValue e).data.map Char.toLower = (emotionValue e).data := by
  cases e <;> exact ⟨by decide, by decide, by decide⟩

theorem detect_pointwise (reply : String) (e : EmotionState) :
    pyContains (emotionValue e) (pyLower (pyStrip reply))
      = occursCI (emotionValue e) reply := by
  obtain ⟨hne, hws, hlow⟩ := emotionValue_ascii e
  show listContains (emotionValue e).data ((pyStripL reply.data).map Char.toLower)
    = listContains ((emotionValue e).data.map Char.toLower) (reply.data.map Char.toLower)
  rw [hlow]
  exact listContains_lower_pyStripL _ _ hws hne

theorem pyJoin_data_of_mem (sep : String) (l : List String) (s : String) (h : s ∈ l) :
    ∃ x y, (pyJoin sep l).data = x ++ s.data ++ y := by
  induction l with
  | nil => cases h
  | cons a t ih =>
    rcases List.mem_cons.mp h with rfl | hmem
    · cases t with
      | nil => exact ⟨[], [], by simp [pyJoin]⟩
      | cons b t2 =>
        refine ⟨[], sep.data ++ (pyJoin sep (b :: t2)).data, ?_⟩
        simp [pyJoin, String.data_append, List.append_assoc]
    · cases t with
      | nil => cases hmem
      | cons b t2 =>
        rcases ih hmem with ⟨x, y, hxy⟩
        refine ⟨a.data ++ sep.data ++ x, y, ?_⟩
        simp [pyJoin, String.data_append, hxy, List.append_assoc]

theorem pyLastN_of_le {α : Type} (n : Nat) (l : List α) (h : l.length ≤ n) :
    pyLastN n l = l := by
  unfold pyLastN
  rw [Nat.sub_eq_zero_of_le h, List.drop_zero]

theorem pyLastN_length_le {α : Type} (n : Nat) (l : List α) :
    (pyLastN n l).length ≤ n := by
  unfold pyLastN
  rw [List.length_drop]
  omega

theorem pyLastN_ten_five {α : Type} (l : List α) :
    pyLastN 10 (pyLastN 5 l) = pyLastN 5 l :=
  pyLastN_of_le 10 _ (le_trans (pyLastN_length_le 5 l) (by omega))

theorem historyStep_eq (acc : String) (m : Message) :
    historyStep acc m = acc ++ renderTurn m := by
  cases h : m.emotion_detected <;>
    simp only [historyStep, renderTurn, h, strAppend_assoc, strAppend_empty]

theorem foldl_historyStep (l : List Message) (acc : String) :
    l.foldl historyStep acc = acc ++ pyJoin "" (l.map renderTurn) := by
  induction l generalizing acc with
  | nil => simp [pyJoin, strAppend_empty]
  | cons m t ih =>
    rw [List.foldl_cons, ih, historyStep_eq]
    cases t with
    | nil => simp [pyJoin, strAppend_empty, strAppend_assoc]
    | cons m2 t2 => simp [pyJoin, strAppend_empty, strAppend_assoc]

theorem suggestionStep_eq (acc : List String) (raw : String) :
    suggestionStep acc raw = acc ++ (lineParse raw).toList := by
  simp only [suggestionStep, lineParse, suggestionKeep]
  split
  · split <;> simp
  · simp

theorem foldl_suggestionStep (lines : List String) (acc : List String) :
    lines.foldl suggestionStep acc = acc ++ lines.filterMap lineParse := by
  induction lines generalizing acc with
  | nil => simp
  | cons a t ih =>
    rw [List.foldl_cons, ih, suggestionStep_eq]
    cases h : lineParse a <;> simp [List.filterMap_cons, h]

theorem pyTruthy_of_suggestionKeep (line : String) (h : suggestionKeep line = true) :
    pyTruthy line = true := by
  cases hd : line.data with
  | nil =>
    unfold suggestionKeep pyStartsWith at h
    rw [hd] at h
    exact absurd h (by decide)
  | cons c t =>
    unfold pyTruthy
    rw [hd]
    rfl

theorem filterMap_lineParse_eq (lines : List String) :
    lines.filterMap lineParse
      = (((lines.map pyStrip).filter suggestionKeep).map
          (fun l => pyStrip (pyLStrip markerChars l))).filter (fun s => pyTruthy s) := by
  induction lines with
  | nil => rfl
  | cons a t ih =>
    rw [List.filterMap_cons, List.map_cons]
    cases hk : suggestionKeep (pyStrip a) with
    | false =>
      have hlp : lineParse a = none := by
        simp [lineParse, hk]
      simp [hlp, ih, List.filter_cons, hk]
    | true =>
      have htr : pyTruthy (pyStrip a) = true := pyTruthy_of_suggestionKeep _ hk
      cases hs : pyTruthy (pyStrip (pyLStrip markerChars (pyStrip a))) with
      | false =>
        have hlp : lineParse a = none := by
          simp [lineParse, hk, htr, hs]
        simp [hlp, ih, List.filter_cons, hk, hs]
      | true =>
        have hlp : lineParse a = some (pyStrip (pyLStrip markerChars (pyStrip a))) := by
          simp [lineParse, hk, htr, hs]
        simp [hlp, ih, List.filter_cons, hk, hs]

theorem pyContains_append_left (sub a b : String) (h : pyContains sub a = true) :
    pyContains sub (a ++ b) = true := by
  unfold pyContains at *
  rw [String.data_append]
  exact listContains_append_left _ _ _ h

theorem pyContains_append_right (sub a b : String) (h : pyContains sub b = true) :
    pyContains sub (a ++ b) = true := by
  unfold pyContains at *
  rw [String.data_append]
  exact listContains_append_right _ _ _ h

theorem pyContains_refl (s : String) : pyContains s s = true := by
  unfold pyContains
  simpa using listContains_self_append s.data []

theorem pyEndsWith_of_parts (s pat : String) (x : List Char)
    (h : s.data = x ++ pat.data) : pyEndsWith s pat = true := by
  unfold pyEndsWith
  rw [h, List.isSuffixOf_iff_suffix]
  exact List.suffix_append x pat.data

theorem clampLevel_eq (n : Nat) :
    clampLevel n = if n < 1 then 1 else if n > 10 then 10 else n := by
  unfold clampLevel
  split_ifs <;> omega

theorem buildSystemPrompt_no_context (u : User) (ctx : String) :
    buildSystemPrompt u ctx [] = promptForMode ctx ++ "\n\n" ++ userContext u := rfl

theorem formatConversationHistory_nil (msg : String) :
    formatConversationHistory [] msg
      = "CONVERSATION HISTORY:\n" ++ "\nStudent: " ++ msg ++ "\nAI Tutor:" := rfl

theorem promptForMode_study_session :
    promptForMode "study_session" = studySessionPrompt := rfl

theorem formatHistory_tail_split :
    (formatConversationHistory [] "What is a derivative?").data
      = ("CONVERSATION HISTORY:\n\n" : String).data
        ++ ("Student: What is a derivative?\nAI Tutor:" : String).data := by decide

theorem countAfter_eq_two_mul (k : Nat) : countAfter k = 2 * k := by
  induction k with
  | zero => rfl
  | succ n ih =>
    show processMessageCount (countAfter n) = 2 * (n + 1)
    unfold processMessageCount
    rw [ih]
    omega

/-! ### Claim theorems -/

/-- C1, counterexample: the source checks only the exact casings `"N/A"` and
`"n/a"`.  The reply `"N/a 5"` contains the marker case-insensitively, yet the
understanding-level parse returns `5` instead of being absent, refuting the
claim that the marker is matched in any case. -/
theorem understanding_parse_counterexample :
    occursCI "N/A" "N/a 5" = true
      ∧ extractUnderstandingLevel (Except.ok "N/a 5") = some 5 :=
  ⟨by decide, by decide⟩

/-- C1, amended: for every understanding-level reply, if the reply contains
the marker `"N/A"` or `"n/a"` in exactly those two casings the result is
absent; otherwise the first decimal-digit run is extracted and its value is
clamped into `[1, 10]`; with no digit run the result is absent. -/
theorem understanding_parse_amended (reply : String) :
    extractUnderstandingLevel (Except.ok reply) = specUnderstandingParse reply := by
  show extractLevelText reply = specUnderstandingParse reply
  have hNA : pyContains "N/A" (pyStrip reply) = pyContains "N/A" reply :=
    pyContains_pyStrip _ _ (by decide) (by decide)
  have hna : pyContains "n/a" (pyStrip reply) = pyContains "n/a" reply :=
    pyContains_pyStrip _ _ (by decide) (by decide)
  have hrun : firstDigitRun (pyStrip reply).data = firstDigitRun reply.data :=
    firstDigitRun_pyStripL reply.data
  simp only [extractLevelText, specUnderstandingParse, hNA, hna, hrun, clampLevel_eq]

/-- C2: the parsed emotion is the first of the seven labels, in
enum-declaration order, that occurs as a case-insensitive substring of the
reply, defaulting to `neutral` when none occurs; a raised completion call
yields the absent result, distinct from the `neutral` default. -/
theorem emotion_parse_spec :
    (∀ reply : String,
      detectEmotion (Except.ok reply)
        = some ((firstEmotionCI reply).getD EmotionState.neutral))
    ∧ (∀ msg : String, detectEmotion (Except.error msg) = none) := by
  constructor
  · intro reply
    show some (detectEmotionText reply) = _
    simp only [detectEmotionText, firstEmotionCI]
    rw [find?_congr EmotionState.all
      (fun e => pyContains (emotionValue e) (pyLower (pyStrip reply)))
      (fun e => occursCI (emotionValue e) reply)
      (fun e _ => detect_pointwise reply e)]
  · intro msg
    rfl

/-- C3: when the reply completion call succeeds but the emotion completion
call raises, `generate_response` still returns the reply text with the
emotion field set to the absent failure default. -/
theorem reply_survives_emotion_failure :
    ∀ (reply err : String) (levelResult : Except String String),
      generateResponse (Except.ok reply) (Except.error err) levelResult
        = (reply, none, extractUnderstandingLevel levelResult) :=
  fun _ _ _ => rfl

/-- C4: the context window is the last `min(L, 10)` turns of the history in
original order, and windowing is idempotent. -/
theorem context_window_last_ten :
    ∀ history : List Message,
      recentMessages history = history.drop (history.length - min history.length 10)
      ∧ (recentMessages history).length = min history.length 10
      ∧ recentMessages (recentMessages history) = recentMessages history := by
  intro history
  have hcase : recentMessages history
      = history.drop (history.length - min history.length 10) := by
    unfold recentMessages
    rcases le_or_lt history.length 10 with h | h
    · rw [if_neg (by omega)]
      have h0 : history.length - min history.length 10 = 0 := by omega
      rw [h0, List.drop_zero]
    · rw [if_pos (by omega)]
      congr 1
      omega
  have hlen : (recentMessages history).length = min history.length 10 := by
    rw [hcase, List.length_drop]
    omega
  refine ⟨hcase, hlen, ?_⟩
  have hnot : ¬ (recentMessages history).length > 10 := by
    rw [hlen]; omega
  rw [show recentMessages (recentMessages history)
      = if (recentMessages history).length > 10 then
          (recentMessages history).drop ((recentMessages history).length - 10)
        else recentMessages history from rfl,
    if_neg hnot]

/-- C5: for an active session, suggestion generation fires on a processed
message exactly when the running appended-turn count at that point is a
nonzero multiple of 6, i.e. after every 3 full student/assistant
exchanges. -/
theorem suggestion_cadence :
    ∀ k : Nat,
      (firesAt k = true ↔ ∃ m, countAfter k = 6 * m ∧ 0 < m)
      ∧ (firesAt k = true ↔ (0 < k ∧ k % 3 = 0)) := by
  intro k
  have hc := countAfter_eq_two_mul k
  unfold firesAt suggestionsFire
  rw [hc]
  simp only [Bool.and_eq_true, decide_eq_true_eq, beq_iff_eq]
  constructor
  · constructor
    · rintro ⟨h1, h2⟩
      exact ⟨k / 3, by omega, by omega⟩
    · rintro ⟨m, hm, hm0⟩
      constructor <;> omega
  · constructor
    · rintro ⟨h1, h2⟩
      constructor <;> omega
    · rintro ⟨h1, h2⟩
      constructor <;> omega

/-- C5, witness. -/
theorem suggestion_cadence_witness : firesAt 3 = true :=
  ((suggestion_cadence 3).2).mpr (by decide)

/-- C6: the parsed suggestion list consists of the lines whose stripped form
begins with `-`, `•`, or the numeric marker `1.`, stripped of the marker and
surrounding whitespace, with empty results dropped and at most 5 items kept;
and the stated reply parses to exactly `["Take breaks", "Review notes"]`. -/
theorem suggestion_parse_spec :
    (∀ reply : String, parseSuggestions reply = specSuggestionLines reply)
    ∧ parseSuggestions "1. Take breaks\n- Review notes\nRandom prose"
        = ["Take breaks", "Review notes"] := by
  constructor
  · intro reply
    unfold parseSuggestions specSuggestionLines
    rw [foldl_suggestionStep, List.nil_append, filterMap_lineParse_eq]
  · decide

/-- C7, counterexample: `SYSTEM_PROMPTS` has no `"general"` entry, so there
is no "general" template to fall back to; an unknown mode — including
`"general"` itself — selects the `"default"` template instead. -/
theorem prompt_mode_general_counterexample :
    SYSTEM_PROMPTS.find? (fun p => p.1 == "general") = none
      ∧ promptForMode "general" = defaultPrompt :=
  ⟨rfl, rfl⟩

/-- C7, amended: the instruction template is selected by exact mode match
and every mode outside the table falls back to the `"default"` template (not
a "general" one); for mode "study_session" with Ada's profile the composed
prompt contains the study-session template, the humanized "Undergraduate",
"Math, Physics", and ends with `"Student: What is a derivative?\nAI Tutor:"`. -/
theorem prompt_mode_fallback_amended :
    (∀ mode : String,
      mode ≠ "default" → mode ≠ "study_session" → mode ≠ "check_in" →
        promptForMode mode = defaultPrompt)
    ∧ (∀ (prefs : LearningPreferences) (email uid : String) (t c : Nat),
        pyContains studySessionPrompt (adaPrompt prefs email uid t c) = true
        ∧ pyContains "Undergraduate" (adaPrompt prefs email uid t c) = true
        ∧ pyContains "Math, Physics" (adaPrompt prefs email uid t c) = true
        ∧ pyEndsWith (adaPrompt prefs email uid t c)
            "Student: What is a derivative?\nAI Tutor:" = true) := by
  constructor
  · intro mode h1 h2 h3
    have e1 : (("default" : String) == mode) = false := by
      rw [beq_eq_false_iff_ne]
      exact fun h => h1 h.symm
    have e2 : (("study_session" : String) == mode) = false := by
      rw [beq_eq_false_iff_ne]
      exact fun h => h2 h.symm
    have e3 : (("check_in" : String) == mode) = false := by
      rw [beq_eq_false_iff_ne]
      exact fun h => h3 h.symm
    unfold promptForMode SYSTEM_PROMPTS
    simp [List.find?, e1, e2, e3]
  · intro prefs email uid t c
    have hB : buildSystemPrompt (adaUser prefs email uid t c) "study_session" []
        = studySessionPrompt ++ "\n\n" ++ userContext (adaUser prefs email uid t c) := by
      rw [buildSystemPrompt_no_context, promptForMode_study_session]
    have hA : adaPrompt prefs email uid t c
        = (studySessionPrompt ++ "\n\n" ++ userContext (adaUser prefs email uid t c))
          ++ "\n\n" ++ formatConversationHistory [] "What is a derivative?" := by
      show buildSystemPrompt (adaUser prefs email uid t c) "study_session" []
          ++ "\n\n" ++ formatConversationHistory [] "What is a derivative?" = _
      rw [hB]
    have hUC : userContext (adaUser prefs email uid t c)
        = "\nSTUDENT PROFILE:\n- Name: " ++ "Ada" ++ "\n- Academic Level: "
          ++ "Undergraduate" ++ "\n- Subjects: " ++ "Math, Physics"
          ++ "\n- Study Style: " ++ studyStyleValue prefs.study_style
          ++ "\n- Total Study Time: " ++ toString t ++ " minutes"
          ++ "\n- Conversations: " ++ toString c ++ "\n" := rfl
    refine ⟨?_, ?_, ?_, ?_⟩
    · rw [hA]
      apply pyContains_append_left
      apply pyContains_append_left
      apply pyContains_append_left
      apply pyContains_append_left
      exact pyContains_refl _
    · rw [hA, hUC]
      apply pyContains_append_left
      apply pyContains_append_left
      apply pyContains_append_right
      iterate 10 (apply pyContains_append_left)
      apply pyContains_append_right
      exact pyContains_refl _
    · rw [hA, hUC]
      apply pyContains_append_left
      apply pyContains_append_left
      apply pyContains_append_right
      iterate 8 (apply pyContains_append_left)
      apply pyContains_append_right
      exact pyContains_refl _
    · rw [hA]
      refine pyEndsWith_of_parts _ _
        (((studySessionPrompt ++ "\n\n" ++ userContext (adaUser prefs email uid t c))
          ++ "\n\n").data ++ ("CONVERSATION HISTORY:\n\n" : String).data) ?_
      rw [String.data_append, formatHistory_tail_split]
      simp [List.append_assoc]

/-- C7, witness: the unknown mode "general" gets the default template. -/
theorem prompt_mode_fallback_witness : promptForMode "general" = defaultPrompt :=
  prompt_mode_fallback_amended.1 "general" (by decide) (by decide) (by decide)

/-- C8: on a raised completion call no pipeline operation raises past its
own boundary: the session summary is the fixed fallback sentence, the
suggestions are the fixed 4-item fallback list, and the chat reply is the
fixed apologetic fallback text. -/
theorem failure_fallback_values :
    ∀ (err : String) (emotionResult levelResult : Except String String),
      generateSessionSummary (Except.error err) = "Study session completed successfully."
      ∧ generateStudySuggestions (Except.error err)
          = ["Review your recent notes and highlight key concepts",
             "Practice active recall by explaining topics out loud",
             "Take regular breaks during study sessions",
             "Create visual summaries or mind maps for complex topics"]
      ∧ generateResponse (Except.error err) emotionResult levelResult
          = (fallbackResponse, none, none) :=
  fun _ _ _ => ⟨rfl, rfl, rfl⟩

set_option maxRecDepth 8192 in
/-- C9, counterexample: `process_message` hands only the last 5 progress
facts to the suggestion generator, so with 10 available facts the suggestion
prompt does not contain the rendering of the oldest of the 10 most-recent
facts, refuting the claim that the prompt carries the 10 most recent. -/
theorem suggestion_prompt_ten_counterexample :
    tenFacts.length = 10
      ∧ factOne ∈ pyLastN 10 tenFacts
      ∧ pyContains (progressSummaryLine factOne)
          (turnSuggestionsPrompt sampleUser tenFacts) = false :=
  ⟨by decide, by decide, by decide⟩

/-- C9, amended: whenever the suggestion generator fires during turn
processing, its prompt includes the renderings
`"- {subject}: {topic} (Level: {level}/10)"` of the 5 most-recent progress
facts (the caller passes `academic_progress[-5:]`, of which the generator
renders the last 10, i.e. all of them). -/
theorem suggestion_prompt_last_five_amended :
    ∀ (u : User) (ps : List AcademicProgress), ∀ p ∈ pyLastN 5 ps,
      pyContains (progressSummaryLine p) (turnSuggestionsPrompt u ps) = true := by
  intro u ps p hp
  have hm : progressSummaryLine p ∈ (pyLastN 10 (pyLastN 5 ps)).map progressSummaryLine := by
    rw [pyLastN_ten_five]
    exact List.mem_map_of_mem progressSummaryLine hp
  rcases pyJoin_data_of_mem "\n" _ _ hm with ⟨x, y, hxy⟩
  show pyContains (progressSummaryLine p) (suggestionsPrompt u (pyLastN 5 ps)) = true
  simp only [suggestionsPrompt]
  apply pyContains_append_left
  apply pyContains_append_right
  unfold pyContains
  exact listContains_of_parts _ x y _ hxy

/-- C9, witness. -/
theorem suggestion_prompt_last_five_witness :
    pyContains (progressSummaryLine ⟨"uid-1", "S10", "T10", 3, 30, "p10"⟩)
      (turnSuggestionsPrompt sampleUser tenFacts) = true :=
  suggestion_prompt_last_five_amended sampleUser tenFacts _ (by decide)

/-- C10: the rendered conversation history is the header, then each windowed
turn rendered as its `role: content` line immediately followed by an
`[Emotion detected: ...]` line exactly when the stored message carries a
detected emotion (and by nothing otherwise), then the current exchange; in
particular every emotive windowed turn contributes its two-line block as a
substring of the rendering. -/
theorem history_emotion_tags :
    ∀ (history : List Message) (current : String),
      (formatConversationHistory history current
        = "CONVERSATION HISTORY:\n" ++ pyJoin "" ((recentMessages history).map renderTurn)
          ++ "\nStudent: " ++ current ++ "\nAI Tutor:")
      ∧ (∀ (m : Message) (e : EmotionState), m.emotion_detected = some e →
          renderTurn m
            = roleLabel m.role ++ ": " ++ m.content ++ "\n[Emotion detected: "
              ++ emotionValue e ++ "]\n")
      ∧ (∀ m : Message, m.emotion_detected = none →
          renderTurn m = roleLabel m.role ++ ": " ++ m.content ++ "\n")
      ∧ (∀ m ∈ recentMessages history, ∀ e : EmotionState, m.emotion_detected = some e →
          pyContains
            (roleLabel m.role ++ ": " ++ m.content ++ "\n[Emotion detected: "
              ++ emotionValue e ++ "]\n")
            (formatConversationHistory history current) = true) := by
  intro history current
  have hsplit : ("\n[Emotion detected: " : String).data
      = ("\n" : String).data ++ ("[Emotion detected: " : String).data := by decide
  have h2 : ∀ (m : Message) (e : EmotionState), m.emotion_detected = some e →
      renderTurn m = roleLabel m.role ++ ": " ++ m.content ++ "\n[Emotion detected: "
        ++ emotionValue e ++ "]\n" := by
    intro m e he
    apply String.ext
    simp only [renderTurn, he, String.data_append, hsplit, List.append_assoc,
      List.cons_append, List.nil_append]
  have h3 : ∀ m : Message, m.emotion_detected = none →
      renderTurn m = roleLabel m.role ++ ": " ++ m.content ++ "\n" := by
    intro m he
    simp only [renderTurn, he, strAppend_empty]
  have h1 : formatConversationHistory history current
      = "CONVERSATION HISTORY:\n" ++ pyJoin "" ((recentMessages history).map renderTurn)
        ++ "\nStudent: " ++ current ++ "\nAI Tutor:" := by
    unfold formatConversationHistory
    rw [foldl_historyStep]
  refine ⟨h1, h2, h3, ?_⟩
  intro m hm e he
  rcases pyJoin_data_of_mem "" ((recentMessages history).map renderTurn) (renderTurn m)
    (List.mem_map_of_mem renderTurn hm) with ⟨x, y, hxy⟩
  rw [h2 m e he] at hxy
  rw [h1]
  apply pyContains_append_left
  apply pyContains_append_left
  apply pyContains_append_left
  apply pyContains_append_right
  unfold pyContains
  exact listContains_of_parts _ x y _ hxy

/-- C10, witness. -/
theorem history_emotion_tags_witness :
    pyContains "Student: hi\n[Emotion detected: happy]\n"
      (formatConversationHistory [sampleTurn] "ok") = true :=
  (history_emotion_tags [sampleTurn] "ok").2.2.2 sampleTurn (by decide)
    EmotionState.happy (by decide)
